import Mathlib

/-!
Shallow embedding of the daily-summary computation and message flows of the
chat_with_battery repository (src/dataclean.py, src/telegram_bot.py).

Numeric modelling: the Python code works on IEEE float64 via pandas; here
every telemetry value is an exact rational (ℚ).  Python's `round(x, n)`
(round-half-to-even at `n` decimal digits) is modelled exactly on ℚ by
`pyRound`.  IEEE division by a zero denominator does not raise in the code
(numpy yields +inf, -inf or nan and `round(inf, 1)` passes it through), so
the unguarded percentage metrics take values in `PctVal`, an ℚ extended with
the three non-finite outcomes.
-/

/-- A calendar timestamp, as used by the `timestamp` column of day1.json
(the code only ever formats its date part and its HH:MM part). -/
structure Timestamp where
  year : ℕ
  month : ℕ
  day : ℕ
  hour : ℕ
  minute : ℕ
  deriving Repr, DecidableEq

/-- Zero-padded two-digit rendering, as `%m`, `%d`, `%H`, `%M` produce. -/
def pad2 (n : ℕ) : String :=
  if n < 10 then "0" ++ toString n else toString n

/-- Zero-padded four-digit year, as `str(date)` produces. -/
def pad4 (n : ℕ) : String :=
  if n < 10 then "000" ++ toString n
  else if n < 100 then "00" ++ toString n
  else if n < 1000 then "0" ++ toString n
  else toString n

/-- `str(ts.date())`: the YYYY-MM-DD date string of a timestamp. -/
def dateStr (t : Timestamp) : String :=
  pad4 t.year ++ "-" ++ pad2 t.month ++ "-" ++ pad2 t.day

/-- `ts.strftime("%H:%M")`: the HH:MM time-of-day string of a timestamp. -/
def hhmm (t : Timestamp) : String :=
  pad2 t.hour ++ ":" ++ pad2 t.minute

/-- A chronological key: strictly monotone in (year, month, day, hour, minute),
used only to state that row timestamps strictly increase. -/
def Timestamp.key (t : Timestamp) : ℕ :=
  (((t.year * 13 + t.month) * 32 + t.day) * 24 + t.hour) * 60 + t.minute

/-- One sampling interval of telemetry: one row of data/day1.json, with the
columns the scripts read. -/
structure TelemetryRow where
  timestamp : Timestamp
  pv_profile : ℚ
  pv_utilized_kw_opt : ℚ
  pv_to_grid_kw_opt : ℚ
  pv_to_battery_kw_opt : ℚ
  grid_to_battery_kw_opt : ℚ
  battery_to_load_kw_opt : ℚ
  battery_to_grid_kw_opt : ℚ
  grid_import_kw_opt : ℚ
  grid_export_kw_opt : ℚ
  gross_load : ℚ
  net_load : ℚ
  foreign_power_costs : ℚ
  electricity_savings_step : ℚ
  feed_in_revenue_delta_step : ℚ
  SOC_opt : ℚ
  deriving Repr, DecidableEq

/-- Python's banker's rounding of a rational to the nearest integer:
round half to even, as `round` does. -/
def pyRoundInt (q : ℚ) : ℤ :=
  if q - (⌊q⌋ : ℚ) < 1/2 then ⌊q⌋
  else if 1/2 < q - (⌊q⌋ : ℚ) then ⌊q⌋ + 1
  else if ⌊q⌋ % 2 = 0 then ⌊q⌋ else ⌊q⌋ + 1

/-- Python's `round(q, d)` on exact rationals: banker's rounding at `d`
decimal digits. -/
def pyRound (d : ℕ) (q : ℚ) : ℚ :=
  (pyRoundInt (q * (10 : ℚ) ^ d) : ℚ) / (10 : ℚ) ^ d

/-- `(rows.map f).sum`: the pandas column sum `df[col].sum()`. -/
def sumBy (f : TelemetryRow → ℚ) (rows : List TelemetryRow) : ℚ :=
  (rows.map f).sum

/-- `df[col].max()` over a non-empty frame, given as head row plus tail. -/
def seriesMax (f : TelemetryRow → ℚ) (r : TelemetryRow) (rs : List TelemetryRow) : ℚ :=
  rs.foldl (fun a x => max a (f x)) (f r)

/-- `df[col].min()` over a non-empty frame, given as head row plus tail. -/
def seriesMin (f : TelemetryRow → ℚ) (r : TelemetryRow) (rs : List TelemetryRow) : ℚ :=
  rs.foldl (fun a x => min a (f x)) (f r)

/-- `df.loc[df[col].idxmax()]`: pandas `idxmax` returns the index of the
FIRST occurrence of the maximum, so the fold only replaces the current best
on a strictly larger value. -/
def idxmaxRow (f : TelemetryRow → ℚ) (r : TelemetryRow) (rs : List TelemetryRow) : TelemetryRow :=
  rs.foldl (fun best x => if f x > f best then x else best) r

/-- `df.loc[df[col].idxmin()]`: first occurrence of the minimum. -/
def idxminRow (f : TelemetryRow → ℚ) (r : TelemetryRow) (rs : List TelemetryRow) : TelemetryRow :=
  rs.foldl (fun best x => if f x < f best then x else best) r

/-- Value of a percentage metric computed as `float(round(num/den*100, 1))`
on float64: finite when the denominator is nonzero; when the denominator sum
is (+)0.0, IEEE division yields +inf, -inf or nan according to the sign of
the numerator, and `round(·, 1)` passes the non-finite value through. -/
inductive PctVal where
  | val : ℚ → PctVal
  | posInf : PctVal
  | negInf : PctVal
  | nan : PctVal
  deriving Repr, DecidableEq

/-- Whether the percentage value is an ordinary finite number. -/
def PctVal.isFinite : PctVal → Bool
  | .val _ => true
  | _ => false

/-- `float(round(num/den*100, 1))` with IEEE zero-denominator behaviour. -/
def pctDiv (num den : ℚ) : PctVal :=
  if den = 0 then
    if num > 0 then .posInf else if num < 0 then .negInf else .nan
  else .val (pyRound 1 (num / den * 100))

/-- The daily summary mapping built identically by src/dataclean.py lines
12-33 and src/telegram_bot.py lines 317-336 (the bot adds one extra key,
`sun_hours_tomorrow`, modelled separately where it is used). -/
structure DailySummary where
  date : String
  total_solar : ℚ
  solar_self_consumed : ℚ
  solar_exported : ℚ
  battery_charged : ℚ
  battery_discharged : ℚ
  grid_import : ℚ
  grid_export : ℚ
  savings : ℚ
  peak_price_time : String
  peak_price : ℚ
  cheap_price_time : String
  cheap_price : ℚ
  sunniest_hour : String
  solar_coverage_pct : PctVal
  export_ratio_pct : ℚ
  battery_contribution_pct : PctVal
  soc_swing : ℚ
  grid_dependence_pct : PctVal
  deriving Repr, DecidableEq

/-- The summary computation on a non-empty frame `r :: rs`, field by field
after src/dataclean.py lines 12-33 / src/telegram_bot.py lines 317-336. -/
def summaryOf (r : TelemetryRow) (rs : List TelemetryRow) : DailySummary :=
  let rows := r :: rs
  { date := dateStr r.timestamp
    total_solar := pyRound 1 (sumBy TelemetryRow.pv_profile rows)
    solar_self_consumed := pyRound 1 (sumBy TelemetryRow.pv_utilized_kw_opt rows)
    solar_exported := pyRound 1 (sumBy TelemetryRow.pv_to_grid_kw_opt rows)
    battery_charged := pyRound 1 (sumBy TelemetryRow.pv_to_battery_kw_opt rows +
      sumBy TelemetryRow.grid_to_battery_kw_opt rows)
    battery_discharged := pyRound 1 (sumBy TelemetryRow.battery_to_load_kw_opt rows +
      sumBy TelemetryRow.battery_to_grid_kw_opt rows)
    grid_import := pyRound 1 (sumBy TelemetryRow.grid_import_kw_opt rows)
    grid_export := pyRound 1 (sumBy TelemetryRow.grid_export_kw_opt rows)
    savings := pyRound 2 (sumBy TelemetryRow.electricity_savings_step rows +
      sumBy TelemetryRow.feed_in_revenue_delta_step rows)
    peak_price_time := hhmm (idxmaxRow TelemetryRow.foreign_power_costs r rs).timestamp
    peak_price := pyRound 2 (seriesMax TelemetryRow.foreign_power_costs r rs)
    cheap_price_time := hhmm (idxminRow TelemetryRow.foreign_power_costs r rs).timestamp
    cheap_price := pyRound 2 (seriesMin TelemetryRow.foreign_power_costs r rs)
    sunniest_hour := hhmm (idxmaxRow TelemetryRow.pv_profile r rs).timestamp
    solar_coverage_pct := pctDiv (sumBy TelemetryRow.pv_utilized_kw_opt rows)
      (sumBy TelemetryRow.gross_load rows)
    export_ratio_pct :=
      if 0 < sumBy TelemetryRow.pv_profile rows then
        pyRound 1 (sumBy TelemetryRow.pv_to_grid_kw_opt rows /
          sumBy TelemetryRow.pv_profile rows * 100)
      else 0
    battery_contribution_pct := pctDiv (sumBy TelemetryRow.battery_to_load_kw_opt rows +
      sumBy TelemetryRow.battery_to_grid_kw_opt rows) (sumBy TelemetryRow.net_load rows)
    soc_swing := pyRound 2 (seriesMax TelemetryRow.SOC_opt r rs -
      seriesMin TelemetryRow.SOC_opt r rs)
    grid_dependence_pct := pctDiv (sumBy TelemetryRow.grid_import_kw_opt rows)
      (sumBy TelemetryRow.gross_load rows) }

/-- The summary computation on an arbitrary row list: on an empty frame the
code raises (`.iloc[0]` / `idxmax` on an empty series), modelled as `none`;
on a non-empty frame it always produces a summary. -/
def summary : List TelemetryRow → Option DailySummary
  | [] => none
  | r :: rs => some (summaryOf r rs)

/-- The metrics src/telegram_bot.py lines 113-117 compute for `/status`. -/
structure StatusData where
  current_soc : ℚ
  total_savings : ℚ
  current_price : ℚ
  peak_price : ℚ
  peak_time : String
  deriving Repr, DecidableEq

/-- `/status` metrics over a non-empty frame `r :: rs`: `iloc[-1]` is the
last row, `total_savings` sums only `electricity_savings_step`. -/
def status_metrics (r : TelemetryRow) (rs : List TelemetryRow) : StatusData :=
  let last := (r :: rs).getLast (List.cons_ne_nil r rs)
  { current_soc := last.SOC_opt
    total_savings := sumBy TelemetryRow.electricity_savings_step (r :: rs)
    current_price := last.foreign_power_costs
    peak_price := seriesMax TelemetryRow.foreign_power_costs r rs
    peak_time := hhmm (idxmaxRow TelemetryRow.foreign_power_costs r rs).timestamp }

/-- Failure of the text-narrator call: either `ANTHROPIC_API_KEY` is unset
(`RuntimeError` in dataclean.py, the no-AI branch in telegram_bot.py), or
the service call itself raises. -/
inductive NarratorError where
  | missingKey : NarratorError
  | serviceFailure : NarratorError
  deriving Repr, DecidableEq

/-- src/dataclean.py lines 67-92, `get_response`: raises on a missing API
key and propagates any service failure; `service` is the opaque narrator
(`some text` on success, `none` when the call fails). -/
def get_response (apiKey : Option String) (service : Option String) :
    Except NarratorError String :=
  match apiKey with
  | none => Except.error NarratorError.missingKey
  | some _ =>
    match service with
    | some t => Except.ok t
    | none => Except.error NarratorError.serviceFailure

/-- src/dataclean.py line 96: `msg = get_response(messages)` with no
surrounding try/except, so a narrator error propagates and aborts the run. -/
def datacleanNarration (apiKey : Option String) (service : Option String) :
    Except NarratorError String :=
  get_response apiKey service

/-- The deterministic fallback template of src/telegram_bot.py lines
378-388 / 403-413, built directly from summary fields (numeric rendering via
`toString` stands in for Python's f-string formatting). -/
def fallbackMessage (s : DailySummary) (sunTomorrow : ℚ) : String :=
  "🔋 **Batterie-Report für " ++ s.date ++ "**\n\n" ++
  "**Solar-Produktion:** " ++ toString s.total_solar ++ " kWh\n" ++
  "**Einsparungen:** " ++ toString s.savings ++ "€\n" ++
  "**Batterie geladen:** " ++ toString s.battery_charged ++ " kWh\n" ++
  "**Batterie entladen:** " ++ toString s.battery_discharged ++ " kWh\n" ++
  "**Peak-Preis:** " ++ toString s.peak_price ++ "€/kWh um " ++ s.peak_price_time ++
  "\n\n**Morgen erwartet:** " ++ toString sunTomorrow ++ " Sonnenstunden ☀️"

/-- src/telegram_bot.py lines 375-413: the message is the narrator's text,
except that a missing API key or a failing call (the inner try/except)
falls back to the deterministic template. -/
def narratedMessage (s : DailySummary) (sunTomorrow : ℚ)
    (apiKey : Option String) (service : Option String) : String :=
  match apiKey with
  | none => fallbackMessage s sunTomorrow
  | some _ =>
    match service with
    | some text => text
    | none => fallbackMessage s sunTomorrow

/-- The slice of the weather lookup that feeds the report: tomorrow's sun
hours; `none` models a failing lookup, for which line 305 of
src/telegram_bot.py substitutes the fallback value 5.0. -/
def sunHoursTomorrow : Option ℚ → ℚ
  | some q => q
  | none => 5

/-- What `generate_daily_report` returns. -/
structure ReportResult where
  message : String
  chart_path : Option String
  deriving Repr, DecidableEq

/-- The error message built by the outer `except` clause (line 437). -/
def reportErrorMessage (e : String) : String :=
  "❌ Fehler beim Generieren des Reports: " ++ e

/-- The pandas error text raised when the frame is empty and `.iloc[0]` is
taken (line 318), caught by the outer `except`. -/
def emptyFrameError : String := "single positional indexer is out-of-bounds"

/-- src/telegram_bot.py lines 283-439, `generate_daily_report`: `load`
models `pd.read_json` (`Except.error e` when loading raises with message
`e`), `weather` the weather lookup, `apiKey`/`service` the narrator as
above.  Every exception inside the body is caught by the outer try/except,
which returns the error report with `chart_path = None`; on success the
chart is always saved to the fixed relative path 'telegram_chart.png'. -/
def generate_daily_report (load : Except String (List TelemetryRow))
    (weather : Option ℚ) (apiKey : Option String) (service : Option String) :
    ReportResult :=
  match load with
  | Except.error e => { message := reportErrorMessage e, chart_path := none }
  | Except.ok rows =>
    match rows with
    | [] => { message := reportErrorMessage emptyFrameError, chart_path := none }
    | r :: rs =>
      let s := summaryOf r rs
      { message := narratedMessage s (sunHoursTomorrow weather) apiKey service
        chart_path := some "telegram_chart.png" }

/-- src/telegram_bot.py line 449: the bot token is a string literal in
source, not read from the environment. -/
def BOT_TOKEN : String := "8412880146:AAETDw8AGPSWU4WpdT3C83e3XQDnFPld3E8"

/-- src/dataclean.py line 119: the Discord webhook URL is a string literal
in source. -/
def WEBHOOK_URL : String :=
  "https://discord.com/api/webhooks/1420562378436771870/hz5NbxRPKcVbSsnTOA0SZxV3bc_k79oOWo6fXmZYVZlV8oDmtzI6FftdgHXysLcK3fhF"

/-- The bot token the program uses as a function of the environment: the
code ignores the environment entirely (telegram_bot.py line 449). -/
def botTokenUsed (_env : String → Option String) : String := BOT_TOKEN

/-- The webhook URL the program uses as a function of the environment: the
code ignores the environment entirely (dataclean.py line 119). -/
def webhookUrlUsed (_env : String → Option String) : String := WEBHOOK_URL

/-- The Anthropic API key the program uses: read from the environment
variable ANTHROPIC_API_KEY (dataclean.py line 68, telegram_bot.py lines
260, 375), with no hard-coded fallback. -/
def anthropicKeyUsed (env : String → Option String) : Option String :=
  env "ANTHROPIC_API_KEY"

/-- `m` is the first row of `rows` attaining the maximum of `f`: every row
is bounded by `f m`, and every row strictly before `m` is strictly below. -/
def FirstMaxRow (f : TelemetryRow → ℚ) (rows : List TelemetryRow) (m : TelemetryRow) : Prop :=
  (∀ x ∈ rows, f x ≤ f m) ∧ ∃ l1 l2, rows = l1 ++ m :: l2 ∧ ∀ x ∈ l1, f x < f m

/-- `m` is the first row of `rows` attaining the minimum of `f`. -/
def FirstMinRow (f : TelemetryRow → ℚ) (rows : List TelemetryRow) (m : TelemetryRow) : Prop :=
  (∀ x ∈ rows, f m ≤ f x) ∧ ∃ l1 l2, rows = l1 ++ m :: l2 ∧ ∀ x ∈ l1, f m < f x

/-- A concrete all-zero telemetry row at 2024-06-01 08:00. -/
def rowZero : TelemetryRow :=
  { timestamp := ⟨2024, 6, 1, 8, 0⟩
    pv_profile := 0
    pv_utilized_kw_opt := 0
    pv_to_grid_kw_opt := 0
    pv_to_battery_kw_opt := 0
    grid_to_battery_kw_opt := 0
    battery_to_load_kw_opt := 0
    battery_to_grid_kw_opt := 0
    grid_import_kw_opt := 0
    grid_export_kw_opt := 0
    gross_load := 0
    net_load := 0
    foreign_power_costs := 0
    electricity_savings_step := 0
    feed_in_revenue_delta_step := 0
    SOC_opt := 0 }

/-- A concrete row at 09:00 with the same (maximal) price as `rowZero`. -/
def rowNine : TelemetryRow :=
  { rowZero with timestamp := ⟨2024, 6, 1, 9, 0⟩ }

/-- A concrete row with nonzero solar production and export. -/
def rowPv : TelemetryRow :=
  { rowZero with pv_profile := 2, pv_to_grid_kw_opt := 1 }

theorem sumBy_eq_zero {f : TelemetryRow → ℚ} {l : List TelemetryRow}
    (h : ∀ x ∈ l, f x = 0) : sumBy f l = 0 := by
  refine List.sum_eq_zero ?_
  intro y hy
  obtain ⟨x, hx, rfl⟩ := List.mem_map.mp hy
  exact h x hx

theorem sumBy_nonneg {f : TelemetryRow → ℚ} {l : List TelemetryRow}
    (h : ∀ x ∈ l, 0 ≤ f x) : 0 ≤ sumBy f l := by
  refine List.sum_nonneg ?_
  intro y hy
  obtain ⟨x, hx, rfl⟩ := List.mem_map.mp hy
  exact h x hx

theorem pctDiv_den_zero_isFinite (num : ℚ) : (pctDiv num 0).isFinite = false := by
  unfold pctDiv
  rw [if_pos rfl]
  by_cases h1 : num > 0
  · rw [if_pos h1]; rfl
  · rw [if_neg h1]
    by_cases h2 : num < 0
    · rw [if_pos h2]; rfl
    · rw [if_neg h2]; rfl

theorem pyRoundInt_nonneg {q : ℚ} (h : 0 ≤ q) : 0 ≤ pyRoundInt q := by
  unfold pyRoundInt
  have hf : (0 : ℤ) ≤ ⌊q⌋ := Int.floor_nonneg.mpr h
  by_cases h1 : q - (⌊q⌋ : ℚ) < 1/2
  · rw [if_pos h1]; exact hf
  · rw [if_neg h1]
    by_cases h2 : 1/2 < q - (⌊q⌋ : ℚ)
    · rw [if_pos h2]; omega
    · rw [if_neg h2]
      by_cases h3 : ⌊q⌋ % 2 = 0
      · rw [if_pos h3]; exact hf
      · rw [if_neg h3]; omega

theorem pyRound_nonneg (d : ℕ) {q : ℚ} (h : 0 ≤ q) : 0 ≤ pyRound d q := by
  unfold pyRound
  apply div_nonneg
  · exact_mod_cast pyRoundInt_nonneg (by positivity)
  · positivity

theorem le_foldl_max (f : TelemetryRow → ℚ) (l : List TelemetryRow) (b : ℚ) :
    b ≤ l.foldl (fun a x => max a (f x)) b := by
  induction l generalizing b with
  | nil => exact le_refl b
  | cons x xs ih => exact (le_max_left b (f x)).trans (ih (max b (f x)))

theorem foldl_min_le (f : TelemetryRow → ℚ) (l : List TelemetryRow) (b : ℚ) :
    l.foldl (fun a x => min a (f x)) b ≤ b := by
  induction l generalizing b with
  | nil => exact le_refl b
  | cons x xs ih => exact (ih (min b (f x))).trans (min_le_left b (f x))

theorem seriesMin_le_seriesMax (f : TelemetryRow → ℚ) (r : TelemetryRow)
    (rs : List TelemetryRow) : seriesMin f r rs ≤ seriesMax f r rs :=
  (foldl_min_le f rs (f r)).trans (le_foldl_max f rs (f r))

theorem idxmaxRow_firstMax (f : TelemetryRow → ℚ) (rs : List TelemetryRow)
    (r : TelemetryRow) : FirstMaxRow f (r :: rs) (idxmaxRow f r rs) := by
  induction rs generalizing r with
  | nil =>
    refine ⟨?_, [], [], rfl, by simp⟩
    intro x hx
    rw [List.mem_singleton.mp hx]
    exact le_refl _
  | cons x xs ih =>
    by_cases hlt : f r < f x
    · have hstep : idxmaxRow f r (x :: xs) = idxmaxRow f x xs := by
        simp [idxmaxRow, List.foldl, if_pos hlt]
      rw [hstep]
      obtain ⟨hb, l1, l2, hdec, hl1⟩ := ih x
      have hxm : f x ≤ f (idxmaxRow f x xs) := hb x (List.mem_cons_self x xs)
      refine ⟨?_, r :: l1, l2, ?_, ?_⟩
      · intro y hy
        rcases List.mem_cons.mp hy with hy | hy
        · rw [hy]; exact (hlt.trans_le hxm).le
        · exact hb y hy
      · simpa using hdec
      · intro y hy
        rcases List.mem_cons.mp hy with hy | hy
        · rw [hy]; exact hlt.trans_le hxm
        · exact hl1 y hy
    · have hstep : idxmaxRow f r (x :: xs) = idxmaxRow f r xs := by
        simp [idxmaxRow, List.foldl, if_neg hlt]
      rw [hstep]
      obtain ⟨hb, l1, l2, hdec, hl1⟩ := ih r
      have hrm : f r ≤ f (idxmaxRow f r xs) := hb r (List.mem_cons_self r xs)
      have hxr : f x ≤ f r := le_of_not_lt hlt
      refine ⟨?_, ?_⟩
      · intro y hy
        rcases List.mem_cons.mp hy with hy | hy
        · rw [hy]; exact hrm
        rcases List.mem_cons.mp hy with hy | hy
        · rw [hy]; exact hxr.trans hrm
        · exact hb y (List.mem_cons_of_mem r hy)
      · match l1, hdec with
        | [], hdec =>
          have hm : idxmaxRow f r xs = r := (List.cons.injEq _ _ _ _ ▸ hdec).1.symm
          refine ⟨[], x :: xs, ?_, by simp⟩
          rw [hm]
          rfl
        | a :: l1', hdec =>
          have ha : a = r := ((List.cons.injEq _ _ _ _).mp hdec).1.symm
          have hxs : xs = l1' ++ idxmaxRow f r xs :: l2 :=
            ((List.cons.injEq _ _ _ _).mp hdec).2
          have hra : f r < f (idxmaxRow f r xs) := by
            have := hl1 a (List.mem_cons_self a l1')
            rwa [ha] at this
          refine ⟨r :: x :: l1', l2, ?_, ?_⟩
          · rw [List.cons_append, List.cons_append, ← hxs]
          intro y hy
          rcases List.mem_cons.mp hy with hy | hy
          · rw [hy]; exact hra
          rcases List.mem_cons.mp hy with hy | hy
          · rw [hy]; exact hxr.trans_lt hra
          · exact hl1 y (List.mem_cons_of_mem a hy)

theorem idxminRow_firstMin (f : TelemetryRow → ℚ) (rs : List TelemetryRow)
    (r : TelemetryRow) : FirstMinRow f (r :: rs) (idxminRow f r rs) := by
  induction rs generalizing r with
  | nil =>
    refine ⟨?_, [], [], rfl, by simp⟩
    intro x hx
    rw [List.mem_singleton.mp hx]
    exact le_refl _
  | cons x xs ih =>
    by_cases hlt : f x < f r
    · have hstep : idxminRow f r (x :: xs) = idxminRow f x xs := by
        simp [idxminRow, List.foldl, if_pos hlt]
      rw [hstep]
      obtain ⟨hb, l1, l2, hdec, hl1⟩ := ih x
      have hxm : f (idxminRow f x xs) ≤ f x := hb x (List.mem_cons_self x xs)
      refine ⟨?_, r :: l1, l2, ?_, ?_⟩
      · intro y hy
        rcases List.mem_cons.mp hy with hy | hy
        · rw [hy]; exact (hxm.trans_lt hlt).le
        · exact hb y hy
      · simpa using hdec
      · intro y hy
        rcases List.mem_cons.mp hy with hy | hy
        · rw [hy]; exact hxm.trans_lt hlt
        · exact hl1 y hy
    · have hstep : idxminRow f r (x :: xs) = idxminRow f r xs := by
        simp [idxminRow, List.foldl, if_neg hlt]
      rw [hstep]
      obtain ⟨hb, l1, l2, hdec, hl1⟩ := ih r
      have hrm : f (idxminRow f r xs) ≤ f r := hb r (List.mem_cons_self r xs)
      have hxr : f r ≤ f x := le_of_not_lt hlt
      refine ⟨?_, ?_⟩
      · intro y hy
        rcases List.mem_cons.mp hy with hy | hy
        · rw [hy]; exact hrm
        rcases List.mem_cons.mp hy with hy | hy
        · rw [hy]; exact hrm.trans hxr
        · exact hb y (List.mem_cons_of_mem r hy)
      · match l1, hdec with
        | [], hdec =>
          have hm : idxminRow f r xs = r := (List.cons.injEq _ _ _ _ ▸ hdec).1.symm
          refine ⟨[], x :: xs, ?_, by simp⟩
          rw [hm]
          rfl
        | a :: l1', hdec =>
          have ha : a = r := ((List.cons.injEq _ _ _ _).mp hdec).1.symm
          have hxs : xs = l1' ++ idxminRow f r xs :: l2 :=
            ((List.cons.injEq _ _ _ _).mp hdec).2
          have hra : f (idxminRow f r xs) < f r := by
            have := hl1 a (List.mem_cons_self a l1')
            rwa [ha] at this
          refine ⟨r :: x :: l1', l2, ?_, ?_⟩
          · rw [List.cons_append, List.cons_append, ← hxs]
          intro y hy
          rcases List.mem_cons.mp hy with hy | hy
          · rw [hy]; exact hra
          rcases List.mem_cons.mp hy with hy | hy
          · rw [hy]; exact hra.trans_le hxr
          · exact hl1 y (List.mem_cons_of_mem a hy)

/-- C1: for every non-empty row sequence, the daily summary maps 'date' to
the YYYY-MM-DD date of the first row's timestamp, the energy totals to the
corresponding column sums rounded to 1 decimal, 'battery_charged' /
'battery_discharged' to the sums of their two source/sink columns rounded
to 1 decimal, and 'savings' to the sum of the two savings columns rounded
to 2 decimals. -/
theorem c1_daily_summary_fields (r : TelemetryRow) (rs : List TelemetryRow) :
    (summaryOf r rs).date = dateStr r.timestamp ∧
    (summaryOf r rs).total_solar =
      pyRound 1 ((r :: rs).map TelemetryRow.pv_profile).sum ∧
    (summaryOf r rs).solar_self_consumed =
      pyRound 1 ((r :: rs).map TelemetryRow.pv_utilized_kw_opt).sum ∧
    (summaryOf r rs).solar_exported =
      pyRound 1 ((r :: rs).map TelemetryRow.pv_to_grid_kw_opt).sum ∧
    (summaryOf r rs).grid_import =
      pyRound 1 ((r :: rs).map TelemetryRow.grid_import_kw_opt).sum ∧
    (summaryOf r rs).grid_export =
      pyRound 1 ((r :: rs).map TelemetryRow.grid_export_kw_opt).sum ∧
    (summaryOf r rs).battery_charged =
      pyRound 1 (((r :: rs).map TelemetryRow.pv_to_battery_kw_opt).sum +
        ((r :: rs).map TelemetryRow.grid_to_battery_kw_opt).sum) ∧
    (summaryOf r rs).battery_discharged =
      pyRound 1 (((r :: rs).map TelemetryRow.battery_to_load_kw_opt).sum +
        ((r :: rs).map TelemetryRow.battery_to_grid_kw_opt).sum) ∧
    (summaryOf r rs).savings =
      pyRound 2 (((r :: rs).map TelemetryRow.electricity_savings_step).sum +
        ((r :: rs).map TelemetryRow.feed_in_revenue_delta_step).sum) :=
  ⟨rfl, rfl, rfl, rfl, rfl, rfl, rfl, rfl, rfl⟩

/-- C2 counterexample: on a one-row frame whose every gross_load is 0, the
summary computation does not fail — it returns a summary in which
grid_dependence_pct is the non-finite float value nan (grid import sum 0
divided by gross load sum 0), so no DivisionByZeroMetric error is raised. -/
theorem c2_counterexample :
    summary [rowZero] = some (summaryOf rowZero []) ∧
    (summaryOf rowZero []).grid_dependence_pct = PctVal.nan := by
  refine ⟨rfl, ?_⟩
  have hg : sumBy TelemetryRow.grid_import_kw_opt [rowZero] = 0 := by
    simp [sumBy, rowZero]
  have hl : sumBy TelemetryRow.gross_load [rowZero] = 0 := by
    simp [sumBy, rowZero]
  show pctDiv (sumBy TelemetryRow.grid_import_kw_opt [rowZero])
    (sumBy TelemetryRow.gross_load [rowZero]) = PctVal.nan
  rw [hg, hl]
  simp [pctDiv]

/-- C2 amended: when every gross_load is 0 the summary computation still
succeeds and grid_dependence_pct and solar_coverage_pct are non-finite
float values (inf or nan), and likewise battery_contribution_pct when every
net_load is 0; no DivisionByZeroMetric error kind exists in the code. -/
theorem c2_zero_denominator_nonfinite (r : TelemetryRow) (rs : List TelemetryRow) :
    ((∀ x ∈ r :: rs, x.gross_load = 0) →
      summary (r :: rs) = some (summaryOf r rs) ∧
      (summaryOf r rs).grid_dependence_pct.isFinite = false ∧
      (summaryOf r rs).solar_coverage_pct.isFinite = false) ∧
    ((∀ x ∈ r :: rs, x.net_load = 0) →
      (summaryOf r rs).battery_contribution_pct.isFinite = false) := by
  constructor
  · intro h
    have hsum : sumBy TelemetryRow.gross_load (r :: rs) = 0 := sumBy_eq_zero h
    refine ⟨rfl, ?_, ?_⟩
    · show (pctDiv (sumBy TelemetryRow.grid_import_kw_opt (r :: rs))
        (sumBy TelemetryRow.gross_load (r :: rs))).isFinite = false
      rw [hsum]
      exact pctDiv_den_zero_isFinite _
    · show (pctDiv (sumBy TelemetryRow.pv_utilized_kw_opt (r :: rs))
        (sumBy TelemetryRow.gross_load (r :: rs))).isFinite = false
      rw [hsum]
      exact pctDiv_den_zero_isFinite _
  · intro h
    have hsum : sumBy TelemetryRow.net_load (r :: rs) = 0 := sumBy_eq_zero h
    show (pctDiv (sumBy TelemetryRow.battery_to_load_kw_opt (r :: rs) +
      sumBy TelemetryRow.battery_to_grid_kw_opt (r :: rs))
      (sumBy TelemetryRow.net_load (r :: rs))).isFinite = false
    rw [hsum]
    exact pctDiv_den_zero_isFinite _

/-- C2 witness: the amended statement evaluated on the concrete all-zero
one-row frame. -/
theorem c2_zero_denominator_witness :
    (summary [rowZero] = some (summaryOf rowZero []) ∧
      (summaryOf rowZero []).grid_dependence_pct.isFinite = false ∧
      (summaryOf rowZero []).solar_coverage_pct.isFinite = false) ∧
    (summaryOf rowZero []).battery_contribution_pct.isFinite = false :=
  ⟨(c2_zero_denominator_nonfinite rowZero []).1 (by simp [rowZero]),
   (c2_zero_denominator_nonfinite rowZero []).2 (by simp [rowZero])⟩

/-- C3: with all pv_profile values 0 (denominator sum zero) the summary
still succeeds and export_ratio_pct is exactly 0; with a nonzero total
(under the data-model invariant that pv_profile is non-negative) it is the
export sum over the solar sum times 100, rounded to 1 decimal. -/
theorem c3_export_ratio_guard (r : TelemetryRow) (rs : List TelemetryRow)
    (hnn : ∀ x ∈ r :: rs, 0 ≤ x.pv_profile) :
    ((∀ x ∈ r :: rs, x.pv_profile = 0) →
      summary (r :: rs) = some (summaryOf r rs) ∧
      (summaryOf r rs).export_ratio_pct = 0) ∧
    (sumBy TelemetryRow.pv_profile (r :: rs) ≠ 0 →
      (summaryOf r rs).export_ratio_pct =
        pyRound 1 (sumBy TelemetryRow.pv_to_grid_kw_opt (r :: rs) /
          sumBy TelemetryRow.pv_profile (r :: rs) * 100)) := by
  have heq : (summaryOf r rs).export_ratio_pct =
      if 0 < sumBy TelemetryRow.pv_profile (r :: rs) then
        pyRound 1 (sumBy TelemetryRow.pv_to_grid_kw_opt (r :: rs) /
          sumBy TelemetryRow.pv_profile (r :: rs) * 100)
      else 0 := rfl
  constructor
  · intro h
    have hsum : sumBy TelemetryRow.pv_profile (r :: rs) = 0 := sumBy_eq_zero h
    refine ⟨rfl, ?_⟩
    rw [heq, hsum]
    simp
  · intro hne
    have hpos : 0 < sumBy TelemetryRow.pv_profile (r :: rs) :=
      lt_of_le_of_ne (sumBy_nonneg hnn) (Ne.symm hne)
    rw [heq, if_pos hpos]

/-- C3 witness: the zero-guard branch on the all-zero row and the ratio
branch on a row with pv_profile 2 and export 1. -/
theorem c3_export_ratio_witness :
    (summary [rowZero] = some (summaryOf rowZero []) ∧
      (summaryOf rowZero []).export_ratio_pct = 0) ∧
    (summaryOf rowPv []).export_ratio_pct =
      pyRound 1 (sumBy TelemetryRow.pv_to_grid_kw_opt [rowPv] /
        sumBy TelemetryRow.pv_profile [rowPv] * 100) :=
  ⟨(c3_export_ratio_guard rowZero [] (by simp [rowZero])).1 (by simp [rowZero]),
   (c3_export_ratio_guard rowPv [] (by norm_num [rowPv, rowZero])).2
     (by norm_num [sumBy, rowPv, rowZero])⟩

/-- C4: on a non-empty frame with strictly increasing timestamps, the
time-of-day metrics come from the FIRST row attaining the extremal value:
peak_price_time from the first row with maximal foreign_power_costs,
cheap_price_time from the first row with its minimum, sunniest_hour from
the first row with maximal pv_profile. -/
theorem c4_tie_break_first (r : TelemetryRow) (rs : List TelemetryRow)
    (_hinc : List.Chain' (fun a b => a.timestamp.key < b.timestamp.key) (r :: rs)) :
    (∃ m, FirstMaxRow TelemetryRow.foreign_power_costs (r :: rs) m ∧
      (summaryOf r rs).peak_price_time = hhmm m.timestamp) ∧
    (∃ m, FirstMinRow TelemetryRow.foreign_power_costs (r :: rs) m ∧
      (summaryOf r rs).cheap_price_time = hhmm m.timestamp) ∧
    (∃ m, FirstMaxRow TelemetryRow.pv_profile (r :: rs) m ∧
      (summaryOf r rs).sunniest_hour = hhmm m.timestamp) :=
  ⟨⟨_, idxmaxRow_firstMax TelemetryRow.foreign_power_costs rs r, rfl⟩,
   ⟨_, idxminRow_firstMin TelemetryRow.foreign_power_costs rs r, rfl⟩,
   ⟨_, idxmaxRow_firstMax TelemetryRow.pv_profile rs r, rfl⟩⟩

/-- C4 witness: two rows with equal maximal foreign_power_costs at 08:00
and 09:00; the theorem applies and peak_price_time is "08:00". -/
theorem c4_tie_break_witness :
    (∃ m, FirstMaxRow TelemetryRow.foreign_power_costs [rowZero, rowNine] m ∧
      (summaryOf rowZero [rowNine]).peak_price_time = hhmm m.timestamp) ∧
    (summaryOf rowZero [rowNine]).peak_price_time = "08:00" :=
  ⟨(c4_tie_break_first rowZero [rowNine]
      (by simp [rowZero, rowNine, Timestamp.key])).1,
   by
    show hhmm (idxmaxRow TelemetryRow.foreign_power_costs rowZero [rowNine]).timestamp = "08:00"
    have hstep : idxmaxRow TelemetryRow.foreign_power_costs rowZero [rowNine] = rowZero := by
      simp [idxmaxRow, rowZero, rowNine]
    rw [hstep]
    rfl⟩

/-- C5: the summary computation is a pure function of the row sequence:
two runs on the same sequence produce identical output (there is no hidden
state or side effect in the embedded computation). -/
theorem c5_deterministic (rows : List TelemetryRow) : summary rows = summary rows :=
  rfl

/-- C6: soc_swing is the maximum SOC_opt minus the minimum SOC_opt rounded
to 2 decimals, and it is always non-negative. -/
theorem c6_soc_swing_nonneg (r : TelemetryRow) (rs : List TelemetryRow) :
    (summaryOf r rs).soc_swing =
      pyRound 2 (seriesMax TelemetryRow.SOC_opt r rs -
        seriesMin TelemetryRow.SOC_opt r rs) ∧
    0 ≤ (summaryOf r rs).soc_swing := by
  refine ⟨rfl, ?_⟩
  show 0 ≤ pyRound 2 (seriesMax TelemetryRow.SOC_opt r rs -
    seriesMin TelemetryRow.SOC_opt r rs)
  exact pyRound_nonneg 2 (sub_nonneg.mpr (seriesMin_le_seriesMax _ r rs))

/-- C7 divergence: the telegram bot substitutes the deterministic template
on a missing key or on a failing narrator call, but dataclean.py's call to
get_response has no handler — a missing key or a service failure there
propagates as an error and the flow aborts instead of falling back. -/
theorem c7_narrator_fallback_partial :
    (∀ service, datacleanNarration none service =
      Except.error NarratorError.missingKey) ∧
    (∀ k, datacleanNarration (some k) none =
      Except.error NarratorError.serviceFailure) ∧
    (∀ s sun service, narratedMessage s sun none service = fallbackMessage s sun) ∧
    (∀ s sun k, narratedMessage s sun (some k) none = fallbackMessage s sun) :=
  ⟨fun _ => rfl, fun _ => rfl, fun _ _ _ => rfl, fun _ _ _ => rfl⟩

/-- C7 failing input: dataclean.py with ANTHROPIC_API_KEY unset — the
narrator caller aborts with an error instead of producing any fallback
text. -/
theorem c7_counterexample :
    datacleanNarration none (some "a sunny day") =
      Except.error NarratorError.missingKey :=
  rfl

/-- C8: the code's secrets as functions of the environment: the bot token
and webhook URL are hard-coded literals, independent of the environment,
while only the Anthropic API key is read from the environment. -/
theorem c8_secrets_hardcoded :
    botTokenUsed (fun _ => none) =
      "8412880146:AAETDw8AGPSWU4WpdT3C83e3XQDnFPld3E8" ∧
    webhookUrlUsed (fun _ => none) =
      "https://discord.com/api/webhooks/1420562378436771870/hz5NbxRPKcVbSsnTOA0SZxV3bc_k79oOWo6fXmZYVZlV8oDmtzI6FftdgHXysLcK3fhF" ∧
    (∀ env, botTokenUsed env = BOT_TOKEN ∧ webhookUrlUsed env = WEBHOOK_URL ∧
      anthropicKeyUsed env = env "ANTHROPIC_API_KEY") :=
  ⟨rfl, rfl, fun _ => ⟨rfl, rfl, rfl⟩⟩

/-- C8 failing input: with an empty environment the program still has a
non-empty bot token and webhook URL — they are embedded in source. -/
theorem c8_counterexample :
    botTokenUsed (fun _ => none) =
      "8412880146:AAETDw8AGPSWU4WpdT3C83e3XQDnFPld3E8" ∧
    webhookUrlUsed (fun _ => none) =
      "https://discord.com/api/webhooks/1420562378436771870/hz5NbxRPKcVbSsnTOA0SZxV3bc_k79oOWo6fXmZYVZlV8oDmtzI6FftdgHXysLcK3fhF" :=
  ⟨rfl, rfl⟩

/-- C9: the /status command reports the last row's SOC_opt and
foreign_power_costs as the current values, and its total savings is the
sum of electricity_savings_step only — unlike the daily summary's savings,
which adds the feed-in revenue sum before rounding. -/
theorem c9_status_last_row (r : TelemetryRow) (rs : List TelemetryRow) :
    (status_metrics r rs).current_soc =
      ((r :: rs).getLast (List.cons_ne_nil r rs)).SOC_opt ∧
    (status_metrics r rs).current_price =
      ((r :: rs).getLast (List.cons_ne_nil r rs)).foreign_power_costs ∧
    (status_metrics r rs).total_savings =
      ((r :: rs).map TelemetryRow.electricity_savings_step).sum ∧
    (summaryOf r rs).savings =
      pyRound 2 (((r :: rs).map TelemetryRow.electricity_savings_step).sum +
        ((r :: rs).map TelemetryRow.feed_in_revenue_delta_step).sum) :=
  ⟨rfl, rfl, rfl, rfl⟩

/-- C10: generate_daily_report is total at its interface: a load failure
(or an empty frame, whose iloc[0] raises inside the try) yields a result
whose message embeds the error text with chart_path none, and on success
the chart_path is always 'telegram_chart.png'. -/
theorem c10_report_total (weather : Option ℚ) (apiKey service : Option String) :
    (∀ e, generate_daily_report (Except.error e) weather apiKey service =
      { message := reportErrorMessage e, chart_path := none }) ∧
    (generate_daily_report (Except.ok []) weather apiKey service =
      { message := reportErrorMessage emptyFrameError, chart_path := none }) ∧
    (∀ r rs,
      (generate_daily_report (Except.ok (r :: rs)) weather apiKey service).chart_path =
        some "telegram_chart.png" ∧
      (generate_daily_report (Except.ok (r :: rs)) weather apiKey service).message =
        narratedMessage (summaryOf r rs) (sunHoursTomorrow weather) apiKey service) :=
  ⟨fun _ => rfl, rfl, fun _ _ => ⟨rfl, rfl⟩⟩
